import Mathlib

/-!
Verification development for the LWE-challenge scheduling driver
(`lwe_challenge.py`): a shallow embedding of the driver's data model and
decision procedures, together with theorems settling the specification's
claims about them.

Modelling conventions:
* Python float arithmetic is modelled exactly, over `ℚ` where the code only
  adds, multiplies, divides and compares, and over `ℝ` where the code calls
  the transcendental `log`.
* The external numeric primitive `gaussian_heuristic` and the float power
  `2**x` are taken as function parameters (`gh`, `pow2`); nothing proved here
  depends on their values unless stated.
* Fallible Python operations (KeyError, AttributeError, NameError, exhausting
  a loop variable) are embedded with `Option`/`Except`.
* Python's `int()` on a float truncates toward zero; it is embedded as
  `pyIntQ` / `pyIntReal`.
-/

/-- Python `int()` on an exact rational: truncation toward zero. -/
def pyIntQ (q : ℚ) : ℤ := if 0 ≤ q then ⌊q⌋ else ⌈q⌉

/-- Python `int()` on a real value: truncation toward zero. -/
noncomputable def pyIntReal (r : ℝ) : ℤ := if 0 ≤ r then ⌊r⌋ else ⌈r⌉

/-- The cost-model exponent fixed at line 199 of `lwe_challenge.py`:
`expo = 0.292`. -/
def expo : ℚ := 0.292

/-- The Boolean success condition tested at lines 211-212 of
`lwe_challenge.py` for a candidate SVP dimension `k`:
`4./3 * gaussian_heuristic(rr[d-k:]) > (target_norm/goal_margin) * k/(1.*d)`.
`gh` is the external `gaussian_heuristic` primitive. -/
def expected_cond (gh : List ℚ → ℚ) (rr : List ℚ) (d : ℕ)
    (target_norm goal_margin : ℚ) (k : ℕ) : Bool :=
  decide ((4 / 3 : ℚ) * gh (List.drop (d - k) rr) >
    (target_norm / goal_margin) * (k : ℚ) / (d : ℚ))

/-- Lines 207-214 of `lwe_challenge.py`: scan `n_expected` over
`range(2, d)`, `break` at the first candidate satisfying `expected_cond`, and
`return n_expected`.  If the loop finishes without `break`, Python returns the
last loop value `d - 1`; if `range(2, d)` is empty (`d ≤ 2`) the name
`n_expected` was never bound and the `return` raises `NameError`, embedded as
`none`. -/
def expected_successful_SVP_dim (gh : List ℚ → ℚ) (rr : List ℚ) (d : ℕ)
    (target_norm goal_margin : ℚ) : Option ℕ :=
  match (List.range' 2 (d - 2)).find? (expected_cond gh rr d target_norm goal_margin) with
  | some k => some k
  | none => if 2 < d then some (d - 1) else none

/-- A degenerate `gaussian_heuristic` that estimates every sublattice's
shortest length as `0`: under it no candidate dimension ever satisfies the
success condition. -/
def ghZero : List ℚ → ℚ := fun _ => 0

/-- A `gaussian_heuristic` constant at `1`, used for concrete evaluations. -/
def ghOne : List ℚ → ℚ := fun _ => 1

/-- A concrete four-entry basis profile used for concrete evaluations. -/
def rrFour : List ℚ := [1, 1, 1, 1]

/-- Specification of `List.find?` over `List.range' s n`: the hit satisfies
the predicate, lies in `[s, s + n)`, and every earlier index fails. -/
theorem find?_range'_spec (p : ℕ → Bool) :
    ∀ (n s k : ℕ), (List.range' s n).find? p = some k →
      p k = true ∧ s ≤ k ∧ k < s + n ∧ ∀ j, s ≤ j → j < k → p j = false := by
  intro n
  induction n with
  | zero => intro s k h; simp [List.range'] at h
  | succ n ih =>
    intro s k h
    rw [List.range'_succ] at h
    by_cases hp : p s
    · rw [List.find?_cons_of_pos _ hp] at h
      cases h
      exact ⟨hp, le_refl s, by omega, fun j h1 h2 => absurd (lt_of_le_of_lt h1 h2) (lt_irrefl s)⟩
    · rw [List.find?_cons_of_neg _ hp] at h
      obtain ⟨hk, hs, hlt, hmin⟩ := ih (s + 1) k h
      refine ⟨hk, by omega, by omega, fun j h1 h2 => ?_⟩
      rcases Nat.eq_or_lt_of_le h1 with heq | hlt2
      · subst heq; exact eq_false_of_ne_true hp
      · exact hmin j hlt2 h2

/-- C2 counterexample: with the degenerate `gaussian_heuristic` `ghZero` no
candidate `k ∈ [2, 4)` satisfies the success condition, yet
`expected_successful_SVP_dim` raises no error: it silently returns the value
`3 = d - 1`.  This refutes the claim that a degenerate profile surfaces a
fatal `DegenerateProfile` error. -/
theorem expected_dim_silent_on_degenerate :
    expected_cond ghZero rrFour 4 1 1 2 = false ∧
    expected_cond ghZero rrFour 4 1 1 3 = false ∧
    expected_successful_SVP_dim ghZero rrFour 4 1 1 = some 3 := by
  refine ⟨?_, ?_, ?_⟩ <;>
    norm_num [expected_successful_SVP_dim, expected_cond, ghZero, rrFour,
      List.range', List.find?]

/-- C2 (amended): when no candidate dimension `k ∈ [2, d)` satisfies the
success condition and `3 ≤ d`, the scan of `expected_successful_SVP_dim`
still terminates — by `k = d - 1` — and silently returns `d - 1`; no error is
surfaced. -/
theorem expected_dim_no_candidate (gh : List ℚ → ℚ) (rr : List ℚ) (d : ℕ)
    (target_norm goal_margin : ℚ) (hd : 3 ≤ d)
    (hnone : ∀ k, k < d → 2 ≤ k → expected_cond gh rr d target_norm goal_margin k = false) :
    expected_successful_SVP_dim gh rr d target_norm goal_margin = some (d - 1) := by
  unfold expected_successful_SVP_dim
  have hfind : (List.range' 2 (d - 2)).find?
      (expected_cond gh rr d target_norm goal_margin) = none := by
    rw [List.find?_eq_none]
    intro x hx
    rw [List.mem_range'_1] at hx
    simp [hnone x (by omega) hx.1]
  rw [hfind]
  simp [show 2 < d by omega]

/-- Witness for `expected_dim_no_candidate` at a concrete degenerate
profile. -/
theorem expected_dim_no_candidate_witness :
    expected_successful_SVP_dim ghZero rrFour 4 1 1 = some (4 - 1) :=
  expected_dim_no_candidate ghZero rrFour 4 1 1 (by norm_num)
    (by intro k hk h2; interval_cases k <;> norm_num [expected_cond, ghZero])

/-- C5 counterexample: on the degenerate profile the function returns `3`,
but `3` does not satisfy the success condition — so the returned value is not
"the smallest `k ≥ 2` such that the condition holds" (no such `k` exists
there at all). -/
theorem expected_dim_value_fails_condition :
    expected_successful_SVP_dim ghZero rrFour 4 1 1 = some 3 ∧
    expected_cond ghZero rrFour 4 1 1 3 = false := by
  constructor <;>
    norm_num [expected_successful_SVP_dim, expected_cond, ghZero, rrFour,
      List.range', List.find?]

/-- C5 (amended): for `3 ≤ d` the scan always returns a value `k₀ ∈ [2, d)`;
every candidate below `k₀` fails the success condition, and `k₀` either
satisfies the condition (it is then the smallest such candidate) or equals
`d - 1` (the fallback when no candidate satisfies it). -/
theorem expected_dim_characterization (gh : List ℚ → ℚ) (rr : List ℚ) (d : ℕ)
    (target_norm goal_margin : ℚ) (hd : 3 ≤ d) :
    ∃ k0, expected_successful_SVP_dim gh rr d target_norm goal_margin = some k0 ∧
      2 ≤ k0 ∧ k0 < d ∧
      (∀ j, j < k0 → 2 ≤ j → expected_cond gh rr d target_norm goal_margin j = false) ∧
      (expected_cond gh rr d target_norm goal_margin k0 = true ∨ k0 = d - 1) := by
  unfold expected_successful_SVP_dim
  cases hfind : (List.range' 2 (d - 2)).find?
      (expected_cond gh rr d target_norm goal_margin) with
  | some k =>
    obtain ⟨hk, h2, hlt, hmin⟩ := find?_range'_spec _ (d - 2) 2 k hfind
    exact ⟨k, rfl, h2, by omega, fun j hj hj2 => hmin j hj2 hj, Or.inl hk⟩
  | none =>
    refine ⟨d - 1, by simp [show 2 < d by omega], by omega, by omega,
      fun j hj hj2 => ?_, Or.inr rfl⟩
    have hmem : j ∈ List.range' 2 (d - 2) := List.mem_range'_1.mpr ⟨hj2, by omega⟩
    have := List.find?_eq_none.mp hfind j hmem
    simpa using this

/-- Witness for `expected_dim_characterization` at a concrete profile. -/
theorem expected_dim_characterization_witness :
    ∃ k0, expected_successful_SVP_dim ghOne rrFour 4 1 1 = some k0 ∧
      2 ≤ k0 ∧ k0 < 4 ∧
      (∀ j, j < k0 → 2 ≤ j → expected_cond ghOne rrFour 4 1 1 j = false) ∧
      (expected_cond ghOne rrFour 4 1 1 k0 = true ∨ k0 = 4 - 1) :=
  expected_dim_characterization ghOne rrFour 4 1 1 (by norm_num)

/-- The two kinds of object the Python name `params` denotes inside
`lwe_kernel`: the Siever run-configuration (line 141, carrying the `threads`
count), or an fplll `BKZ.Param` built at line 242 inside the lookahead
simulation (which carries only `block_size`/`max_loops` and has no `threads`
attribute). -/
inductive ParamsObj where
  | sieverParams (threads : ℚ) : ParamsObj
  | bkzParam (block_size max_loops : ℕ) : ParamsObj
deriving DecidableEq

/-- The Python attribute read `params.threads`; `none` models
`AttributeError`. -/
def getThreads : ParamsObj → Option ℚ
  | ParamsObj.sieverParams t => some t
  | ParamsObj.bkzParam _ _ => none

/-- Python dict lookup `tbl[k]`; `none` models `KeyError`. -/
def dictGet : List (ℕ × ℚ) → ℕ → Option ℚ
  | [], _ => none
  | (k0, v0) :: rest, k => if k0 = k then some v0 else dictGet rest k

/-- Python dict store `tbl[k] = v`: replace the entry if present, else
append it. -/
def dictSet : List (ℕ × ℚ) → ℕ → ℚ → List (ℕ × ℚ)
  | [], k, v => [(k, v)]
  | (k0, v0) :: rest, k, v =>
    if k0 = k then (k, v) :: rest else (k0, v0) :: dictSet rest k v

/-- State threaded through the lookahead simulation of lines 234-253 of
`lwe_kernel`.  Dicts live on an explicit heap (addressed by index) so that
Python's reference semantics for `temp_T_blocksizes = T_blocksizes` at line
238 is captured: both names hold heap addresses. -/
structure SimState where
  params : ParamsObj
  heap : List (List (ℕ × ℚ))
  tAddr : ℕ
  tempAddr : ℕ
  previous_blocksize : ℕ
  rr : List ℚ
  extra_T_BKZ : ℚ
  future_rrs : List (List ℚ)
  extra_T_BKZs : List ℚ
deriving DecidableEq

/-- Lines 235-238 of `lwe_kernel`: initialise the lookahead state.  The
assignment `temp_T_blocksizes = T_blocksizes` copies the reference, so
`tempAddr` and `tAddr` point at the same heap cell. -/
def sim_init (params0 : ParamsObj) (tbl : List (ℕ × ℚ)) (blocksize : ℕ)
    (rr0 : List ℚ) : SimState :=
  { params := params0, heap := [tbl], tAddr := 0, tempAddr := 0,
    previous_blocksize := blocksize, rr := rr0, extra_T_BKZ := 0,
    future_rrs := [], extra_T_BKZs := [] }

/-- One iteration of the loop at lines 240-253 of `lwe_kernel`: rebind
`params` to `fplll_bkz.Param(block_size=rblock, max_loops=1)`, simulate the
profile (`simulateFn` is the external `fpylll` simulator), extrapolate the
tour time `T(rblock) = temp[previous] * 2**(expo*(rblock - previous))`
(`pow2` is the float power primitive), store it into the dict held by
`temp_T_blocksizes`, and accumulate the extra time. -/
def sim_step (simulateFn : List ℚ → ℕ → List ℚ) (pow2 : ℚ → ℚ)
    (s : SimState) (rblock : ℕ) : Option SimState :=
  let rr2 := simulateFn s.rr rblock
  match dictGet (s.heap.getD s.tempAddr []) s.previous_blocksize with
  | none => none
  | some tprev =>
    let T_rblock_BKZ := tprev * pow2 (expo * ((rblock : ℚ) - (s.previous_blocksize : ℚ)))
    some { params := ParamsObj.bkzParam rblock 1,
           heap := s.heap.set s.tempAddr
             (dictSet (s.heap.getD s.tempAddr []) rblock T_rblock_BKZ),
           tAddr := s.tAddr, tempAddr := s.tempAddr,
           previous_blocksize := rblock, rr := rr2,
           extra_T_BKZ := s.extra_T_BKZ + T_rblock_BKZ,
           future_rrs := s.future_rrs ++ [rr2],
           extra_T_BKZs := s.extra_T_BKZs ++ [s.extra_T_BKZ + T_rblock_BKZ] }

/-- The whole loop at lines 240-253 over the remaining blocksizes. -/
def sim_pass (simulateFn : List ℚ → ℕ → List ℚ) (pow2 : ℚ → ℚ) :
    SimState → List ℕ → Option SimState
  | s, [] => some s
  | s, rblock :: rest =>
    match sim_step simulateFn pow2 s rblock with
    | none => none
    | some s2 => sim_pass simulateFn pow2 s2 rest

/-- Lines 227-228 of `lwe_kernel`:
`remaining_blocksizes = blocksizes[ind+1 : ind+3]` with
`ind = blocksizes.index(blocksize)` — the up-to-two lookahead steps. -/
def remainingBlocksizes (blocksizes : List ℕ) (blocksize : ℕ) : List ℕ :=
  ((blocksizes.drop (blocksizes.indexOf blocksize + 1)).take 2)

/-- One iteration of the decision loop at lines 257-265 of `lwe_kernel`:
skip the step when the simulated success dimension does not improve
(`svp_dim_dec >= 0`), otherwise read `params.threads` (line 263 — `none`
models the `AttributeError` when `params` no longer is the run
configuration) and set `more_BKZ` when the accumulated extra reduction time
beats the extrapolated search-time saving. -/
def more_BKZ_step (gh : List ℚ → ℚ) (pow2 : ℚ → ℚ) (d : ℕ)
    (target_norm goal_margin : ℚ) (paramsObj : ParamsObj)
    (current_n_expected : ℕ) (acc : Bool) (st : List ℚ × ℚ) : Option Bool :=
  match expected_successful_SVP_dim gh st.1 d target_norm goal_margin with
  | none => none
  | some potential_n_expected =>
    if 0 ≤ (potential_n_expected : ℤ) - (current_n_expected : ℤ) then some acc
    else
      match getThreads paramsObj with
      | none => none
      | some threads =>
        if st.2 < (1 - pow2 (expo * ((potential_n_expected : ℚ) - (current_n_expected : ℚ)))) *
            (pow2 (expo * ((current_n_expected : ℚ) - 64)) / threads) then some true
        else some acc

/-- The decision loop at lines 255-265 of `lwe_kernel`, folded over
`zip(future_rrs, extra_T_BKZs)` starting from `more_BKZ = False`. -/
def lookahead_more_BKZ (gh : List ℚ → ℚ) (pow2 : ℚ → ℚ) (d : ℕ)
    (target_norm goal_margin : ℚ) (paramsObj : ParamsObj)
    (current_n_expected : ℕ) : List (List ℚ × ℚ) → Bool → Option Bool
  | [], acc => some acc
  | st :: rest, acc =>
    match more_BKZ_step gh pow2 d target_norm goal_margin paramsObj
        current_n_expected acc st with
    | none => none
    | some acc2 =>
      lookahead_more_BKZ gh pow2 d target_norm goal_margin paramsObj
        current_n_expected rest acc2

/-- C3: a concrete lookahead pass starting from the Siever run-configuration
(threads = 4) over two remaining blocksizes.  Afterwards the Python name
`params` holds the fplll `BKZ.Param(34, 1)` built at line 242 — not the
unchanged run-configuration object — and the attribute read `params.threads`
performed at line 263 (and by any later call of `attainable_SVP_dim`) fails
(`none` = `AttributeError`), while the original run configuration still
answers `4`. -/
theorem params_rebound_after_lookahead :
    Option.map (fun s2 => (s2.params, getThreads s2.params))
      (sim_pass (fun rr _ => rr) (fun _ => 4)
        (sim_init (ParamsObj.sieverParams 4) [(30, 10)] 30 rrFour)
        (remainingBlocksizes [30, 32, 34] 30))
      = some (ParamsObj.bkzParam 34 1, none) ∧
    getThreads (ParamsObj.sieverParams 4) = some 4 := by
  constructor <;>
    norm_num [sim_pass, sim_step, sim_init, remainingBlocksizes, dictGet,
      dictSet, getThreads, expo, rrFour, List.indexOf]

/-- C4: after the same concrete lookahead pass, the dict reached through the
address still held by `T_blocksizes` (the *real* timing table) contains the
synthetically extrapolated durations `40` and `160` for blocksizes `32` and
`34`, although no tour was ever executed at those blocksizes — because
`temp_T_blocksizes = T_blocksizes` (line 238) aliases the real table instead
of copying it. -/
theorem timing_table_extrapolation_persisted :
    Option.map (fun s2 => (dictGet (s2.heap.getD s2.tAddr []) 32,
        dictGet (s2.heap.getD s2.tAddr []) 34))
      (sim_pass (fun rr _ => rr) (fun _ => 4)
        (sim_init (ParamsObj.sieverParams 4) [(30, 10)] 30 rrFour)
        (remainingBlocksizes [30, 32, 34] 30))
      = some (some 40, some 160) := by
  norm_num [sim_pass, sim_step, sim_init, remainingBlocksizes, dictGet,
    dictSet, expo, rrFour, List.indexOf]

/-- C1: an EVALUATE round that reaches the lookahead with an improving
simulated success dimension (current dimension 3, simulated dimension 2,
extra time 1/200 below the saving threshold 1/16).  First conjunct: the code
as written — the decision loop reads `params.threads` from the `params` name
rebound to the fplll `BKZ.Param` during the simulation loop — aborts with
`AttributeError` (`none`) instead of deciding.  Second conjunct: the same
round, with the threads read answered by the original run configuration
(threads = 4) as the claim intends, sets `more_BKZ = true` exactly per the
claimed time-saving rule. -/
theorem lookahead_threads_attribute_error :
    ((sim_pass (fun rr _ => rr) (fun _ => (1/2 : ℚ))
        (sim_init (ParamsObj.sieverParams 4) [(30, 1/100)] 30 rrFour)
        (remainingBlocksizes [30, 32] 30)).bind
      (fun s2 => lookahead_more_BKZ ghOne (fun _ => (1/2 : ℚ)) 4 1 1 s2.params 3
        (s2.future_rrs.zip s2.extra_T_BKZs) false) = none) ∧
    ((sim_pass (fun rr _ => rr) (fun _ => (1/2 : ℚ))
        (sim_init (ParamsObj.sieverParams 4) [(30, 1/100)] 30 rrFour)
        (remainingBlocksizes [30, 32] 30)).bind
      (fun s2 => lookahead_more_BKZ ghOne (fun _ => (1/2 : ℚ)) 4 1 1
        (ParamsObj.sieverParams 4) 3
        (s2.future_rrs.zip s2.extra_T_BKZs) false) = some true) := by
  constructor <;>
    norm_num [sim_pass, sim_step, sim_init, remainingBlocksizes, dictGet,
      dictSet, getThreads, expo, rrFour, List.indexOf, lookahead_more_BKZ,
      more_BKZ_step, expected_successful_SVP_dim, expected_cond, ghOne,
      List.range', List.find?]

/-- Lines 201-205 of `lwe_challenge.py`:
`int(58+6 + (1./expo) * log(svp_Tmax * params.threads)/log(2.))` with
`svp_Tmax = svp_bkz_time_factor * T_BKZ` — the dimension affordable within
the reduction time already spent. -/
noncomputable def attainable_SVP_dim (svp_bkz_time_factor T_BKZ threads : ℝ) : ℤ :=
  pyIntReal (58 + 6 +
    (1 / (expo : ℝ)) * Real.log (svp_bkz_time_factor * T_BKZ * threads) / Real.log 2)

/-- Python `int()` (truncation toward zero) is monotone. -/
theorem pyIntReal_mono {r s : ℝ} (h : r ≤ s) : pyIntReal r ≤ pyIntReal s := by
  unfold pyIntReal
  by_cases hr : 0 ≤ r
  · rw [if_pos hr, if_pos (le_trans hr h)]
    exact Int.floor_le_floor h
  · rw [if_neg hr]
    by_cases hs : 0 ≤ s
    · rw [if_pos hs]
      refine le_trans (show ⌈r⌉ ≤ (0:ℤ) from Int.ceil_le.mpr ?_)
        (show (0:ℤ) ≤ ⌊s⌋ from Int.le_floor.mpr ?_)
      · push_cast
        exact le_of_lt (lt_of_not_le hr)
      · push_cast
        exact hs
    · rw [if_neg hs]
      exact Int.ceil_le_ceil h

/-- C6 counterexample: at the positive input `f = 1`, `T = 2⁻¹⁹`, `t = 1`
(so `f·T·t = 2⁻¹⁹ > 0`), the code's `int()` truncation returns `-1` while
the claimed `floor(64 + (1/C)·log2(f·T·t)) = ⌊-78/73⌋ = -2`: Python's
`int()` truncates toward zero and differs from `floor` on the negative
values this expression takes for tiny budgets. -/
theorem attainable_SVP_dim_trunc_ne_floor :
    (0 : ℝ) < 1 * (2:ℝ)^(-19 : ℤ) * 1 ∧
    attainable_SVP_dim 1 ((2:ℝ)^(-19 : ℤ)) 1 = -1 ∧
    ⌊(64 : ℝ) + (1 / (expo : ℝ)) * Real.logb 2 (1 * (2:ℝ)^(-19 : ℤ) * 1)⌋ = -2 := by
  have hL : Real.log 2 ≠ 0 := (Real.log_pos (by norm_num)).ne'
  have hexpo : (expo : ℝ) = 73/250 := by norm_num [expo]
  have harg : (1 : ℝ) * (2:ℝ)^(-19 : ℤ) * 1 = (2:ℝ)^(-19 : ℤ) := by ring
  have hlog : Real.log ((2:ℝ)^(-19 : ℤ)) = (-19) * Real.log 2 := by
    rw [Real.log_zpow]; push_cast; ring
  refine ⟨by positivity, ?_, ?_⟩
  · unfold attainable_SVP_dim pyIntReal
    rw [harg, hlog, hexpo, mul_div_assoc, mul_div_assoc, div_self hL]
    rw [if_neg (by norm_num)]
    rw [Int.ceil_eq_iff]
    push_cast
    norm_num
  · rw [harg, Real.logb, hlog, hexpo, mul_div_assoc, div_self hL]
    rw [Int.floor_eq_iff]
    push_cast
    norm_num

/-- C6 (amended): `attainable_SVP_dim` returns the `int()`-truncation of
`64 + (1/C)·log2(f·T·t)`; this equals the claimed floor whenever
`f·T·t ≥ 1`, and the result is non-decreasing in the elapsed reduction time
`T_BKZ` and in the time factor, for fixed threads. -/
theorem attainable_SVP_dim_amended (f T t T2 f2 : ℝ)
    (hf : 0 < f) (hT : 0 < T) (ht : 0 < t) (hT2 : T ≤ T2) (hf2 : f ≤ f2) :
    (1 ≤ f * T * t →
      attainable_SVP_dim f T t = ⌊(64 : ℝ) + (1 / (expo : ℝ)) * Real.logb 2 (f * T * t)⌋) ∧
    attainable_SVP_dim f T t ≤ attainable_SVP_dim f T2 t ∧
    attainable_SVP_dim f T t ≤ attainable_SVP_dim f2 T t := by
  have hexpo : (0:ℝ) < (expo : ℝ) := by norm_num [expo]
  have hlog2 : (0:ℝ) < Real.log 2 := Real.log_pos (by norm_num)
  refine ⟨?_, ?_, ?_⟩
  · intro h1
    unfold attainable_SVP_dim pyIntReal
    have h0 : (0:ℝ) ≤ (1 / (expo : ℝ)) * Real.log (f * T * t) / Real.log 2 :=
      div_nonneg (mul_nonneg (by positivity) (Real.log_nonneg h1)) hlog2.le
    rw [if_pos (by linarith)]
    congr 1
    rw [Real.logb]
    ring
  · apply pyIntReal_mono
    gcongr
  · apply pyIntReal_mono
    gcongr

/-- Witness for `attainable_SVP_dim_amended` at `f = 1, T = 1, t = 1`,
`T2 = 2`, `f2 = 3`. -/
theorem attainable_SVP_dim_amended_witness :
    (1 ≤ (1:ℝ) * 1 * 1 →
      attainable_SVP_dim 1 1 1 = ⌊(64 : ℝ) + (1 / (expo : ℝ)) * Real.logb 2 ((1:ℝ) * 1 * 1)⌋) ∧
    attainable_SVP_dim 1 1 1 ≤ attainable_SVP_dim 1 2 1 ∧
    attainable_SVP_dim 1 1 1 ≤ attainable_SVP_dim 3 1 1 :=
  attainable_SVP_dim_amended 1 1 1 2 3 (by norm_num) (by norm_num) (by norm_num)
    (by norm_num) (by norm_num)

/-- A Python-3 value of the two types that occur at line 135 of
`lwe_kernel`: a materialised `list` of ints, or a lazy `range` object (in
Python 3, `range(...)` is not a list). -/
inductive PyVal where
  | vlist (xs : List ℤ) : PyVal
  | vrange (lo hi step : ℤ) : PyVal
deriving DecidableEq

/-- The elements a Python `range(lo, hi, step)` with positive step yields. -/
def rangeToList (lo hi step : ℤ) : List ℤ :=
  if 0 < step then
    (List.range ((hi - lo + step - 1) / step).toNat).map (fun i => lo + step * i)
  else []

/-- Python `list(...)`: materialise a range, leave a list unchanged. -/
def pyList : PyVal → PyVal
  | PyVal.vlist xs => PyVal.vlist xs
  | PyVal.vrange lo hi step => PyVal.vlist (rangeToList lo hi step)

/-- Python-3 `+` on these types: `list + list` concatenates, while
`list + range` raises `TypeError` — a `range` object does not support being
concatenated to a list. -/
def pyAdd : PyVal → PyVal → Except String PyVal
  | PyVal.vlist a, PyVal.vlist b2 => Except.ok (PyVal.vlist (a ++ b2))
  | PyVal.vlist _, PyVal.vrange _ _ _ =>
    Except.error "TypeError: can only concatenate list (not range) to list"
  | PyVal.vrange _ _ _, _ => Except.error "TypeError: unsupported operand"

/-- Helper for the blocksize-spec parse: split a character list at colons. -/
def splitColonsAux : List Char → List Char → List (List Char)
  | [], acc => [acc.reverse]
  | c :: rest, acc =>
    if c = ':' then acc.reverse :: splitColonsAux rest []
    else splitColonsAux rest (c :: acc)

/-- Helper: read a decimal numeral from characters. -/
def parseNatCharsAux : List Char → ℕ → Option ℕ
  | [], acc => some acc
  | c :: rest, acc =>
    if c.isDigit then parseNatCharsAux rest (acc * 10 + (c.toNat - 48)) else none

/-- Read a non-empty decimal numeral from characters. -/
def parseNatChars : List Char → Option ℕ
  | [] => none
  | c :: rest => parseNatCharsAux (c :: rest) 0

/-- The effect of `re.sub(":", ",", blocksizes)` followed by
`eval("range(%s)" % ...)` argument parsing: read a `low:high:inc` spec. -/
def parseRangeSpec (s : String) : Option (ℤ × ℤ × ℤ) :=
  match (splitColonsAux s.data []).map parseNatChars with
  | [some a, some b2, some c] => some ((a : ℤ), (b2 : ℤ), (c : ℤ))
  | _ => none

/-- Line 135 of `lwe_kernel` under Python-3 semantics:
`blocksizes = list(range(10, 40)) + eval("range(%s)" % re.sub(":", ",", blocksizes))`.
The left operand is materialised by `list(...)`, the right operand stays a
`range` object. -/
def build_blocksizes_explicit (spec : String) : Except String PyVal :=
  match parseRangeSpec spec with
  | some (lo, hi, st) => pyAdd (pyList (PyVal.vrange 10 40 1)) (PyVal.vrange lo hi st)
  | none => Except.error "SyntaxError: invalid range spec"

/-- C7: on the explicit spec `"10:20:2"`, line 135 under
Python-3 semantics raises `TypeError` (`list + range`), so the Schedule
Builder never produces the claimed schedule (first conjunct).  The second
conjunct shows that the evidently intended computation — with the right
operand also materialised by `list(...)`, as the docstring (lines 50-52)
and the default branch (line 137) do — yields exactly the claimed
`[10..40) ++ [10,12,14,16,18]`. -/
theorem blocksizes_explicit_typeerror :
    build_blocksizes_explicit "10:20:2" =
      Except.error "TypeError: can only concatenate list (not range) to list" ∧
    pyAdd (pyList (PyVal.vrange 10 40 1)) (pyList (PyVal.vrange 10 20 2)) =
      Except.ok (PyVal.vlist
        (((List.range' 10 30).map (fun k => (k : ℤ))) ++ [10, 12, 14, 16, 18])) := by
  constructor <;> rfl

/-- Line 132 of `lwe_kernel`:
`target_norm = goal_margin * (alpha*q)**2 * m + 1`. -/
def target_norm (goal_margin alpha q m : ℚ) : ℚ :=
  goal_margin * (alpha * q) ^ 2 * m + 1

/-- C9: for positive `goal_margin`, `alpha`, `q`, `m`, the once-per-run
threshold equals `goal_margin·(alpha·q)²·m + 1` and is strictly positive. -/
theorem target_norm_pos (goal_margin alpha q m : ℚ)
    (h1 : 0 < goal_margin) (h2 : 0 < alpha) (h3 : 0 < q) (h4 : 0 < m) :
    target_norm goal_margin alpha q m = goal_margin * (alpha * q) ^ 2 * m + 1 ∧
    0 < target_norm goal_margin alpha q m := by
  refine ⟨rfl, ?_⟩
  unfold target_norm
  positivity

/-- Witness for `target_norm_pos` at `goal_margin = alpha = q = m = 1`. -/
theorem target_norm_pos_witness :
    target_norm 1 1 1 1 = 1 * ((1 : ℚ) * 1) ^ 2 * 1 + 1 ∧ 0 < target_norm 1 1 1 1 :=
  target_norm_pos 1 1 1 1 (by norm_num) (by norm_num) (by norm_num) (by norm_num)

/-- Zero-padded `%03d` formatting of a natural number. -/
def fmt03 (k : ℕ) : String :=
  let s := toString k
  if s.length < 3 then String.mk (List.replicate (3 - s.length) '0') ++ s else s

/-- Result of one run of `lwe_kernel`'s main loop: the solved exit (lines
295-303, carrying the artifact filename and the final state), the raised
`ValueError` of line 305, or an unhandled exception propagating out of the
loop body — `lwe_kernel` installs no handler, so exceptions such as the
`AttributeError` of lines 263/205 (after `params` is rebound) or the
`NameError` of line 280 (under verbose) terminate the kernel too. -/
inductive Outcome (S : Type) where
  | solved (filename : String) (final : S) : Outcome S
  | failed (msg : String) : Outcome S
  | raised (msg : String) : Outcome S

/-- The body of one tour iteration of `lwe_kernel` (lines 160-293): the
reduction phase `phase1` (lines 160-194: BKZ tour, timing update, `lll` —
an atomic external call, abstracted as total), the goal check at line 196
(`break`), then the evaluate/lookahead/pump phase `phase2` (lines 199-291,
which the `continue` paths leave as the identity) — fallible, because its
in-scope scheduler code can raise (the `params.threads` reads of lines
263/205 after the rebinding, the line-280 `NameError` under verbose) —
followed by the goal check of lines 292-293 (`break`).  The flag records
whether the tour loop `break`s; an exception propagates out unhandled. -/
def tourBody {S : Type} (phase1 : S → S) (phase2 : S → Except String S)
    (r00 : S → ℚ) (tn : ℚ) (s : S) : Except String (S × Bool) :=
  let s1 := phase1 s
  if r00 s1 ≤ tn then Except.ok (s1, true)
  else
    match phase2 s1 with
    | Except.error e => Except.error e
    | Except.ok s2 =>
      if r00 s2 ≤ tn then Except.ok (s2, true) else Except.ok (s2, false)

/-- `for tt in range(tours)` with early `break` (lines 158, 196, 293); an
exception from the body aborts the loop. -/
def runTours {S : Type} (body : S → Except String (S × Bool)) :
    ℕ → S → Except String S
  | 0, s => Except.ok s
  | k + 1, s =>
    match body s with
    | Except.error e => Except.error e
    | Except.ok r => if r.2 then Except.ok r.1 else runTours body k r.1

/-- The solution filename of lines 298-299:
`'lwechallenge/%03d-%03d-solution.txt' % (n, int(alpha*1000))`. -/
def solutionFilename (n : ℕ) (alpha : ℚ) : String :=
  "lwechallenge/" ++ fmt03 n ++ "-" ++ fmt03 (pyIntQ (alpha * 1000)).toNat ++
    "-solution.txt"

/-- The outer loop of `lwe_kernel` (lines 157-305): for each scheduled
blocksize run up to `tours` tour bodies; then (line 295) if the first
Gram-Schmidt squared length reached the target, write the solution artifact
and return, else move to the next blocksize; when the schedule is exhausted,
`raise ValueError("No solution found.")`.  There is no `try`/`except` in
`lwe_kernel`, so an exception from a tour body terminates the kernel as
`Outcome.raised`. -/
def lwe_loop {S : Type} (phase1 : ℕ → S → S) (phase2 : ℕ → S → Except String S)
    (r00 : S → ℚ) (tn : ℚ) (n : ℕ) (alpha : ℚ) (tours : ℕ) :
    List ℕ → S → Outcome S
  | [], _ => Outcome.failed "No solution found."
  | blocksize :: rest, s =>
    match runTours (tourBody (phase1 blocksize) (phase2 blocksize) r00 tn) tours s with
    | Except.error e => Outcome.raised e
    | Except.ok s1 =>
      if r00 s1 ≤ tn then Outcome.solved (solutionFilename n alpha) s1
      else lwe_loop phase1 phase2 r00 tn n alpha tours rest s1

/-- C8 (amended): the kernel loop terminates in exactly one of three ways —
the descriptive `"No solution found."` error after exhausting the schedule,
an unhandled exception propagated from a tour body (the crash paths of the
in-scope evaluate/search code established under C1/C3/C10), or the solved
return, whose artifact name is built from the zero-padded instance dimension
and the three-digit fixed-point noise rate `floor(alpha·1000)` and whose
final state provably meets the goal `r00(final) ≤ target_norm`: it never
returns without the goal being met. -/
theorem lwe_kernel_terminal {S : Type} (phase1 : ℕ → S → S)
    (phase2 : ℕ → S → Except String S) (r00 : S → ℚ)
    (tn : ℚ) (n : ℕ) (alpha : ℚ) (tours : ℕ) (schedule : List ℕ) (s : S)
    (halpha : 0 ≤ alpha) :
    lwe_loop phase1 phase2 r00 tn n alpha tours schedule s =
      Outcome.failed "No solution found." ∨
    (∃ e, lwe_loop phase1 phase2 r00 tn n alpha tours schedule s = Outcome.raised e) ∨
    ∃ sf, lwe_loop phase1 phase2 r00 tn n alpha tours schedule s =
        Outcome.solved ("lwechallenge/" ++ fmt03 n ++ "-" ++
          fmt03 (Int.toNat ⌊alpha * 1000⌋) ++ "-solution.txt") sf ∧
      r00 sf ≤ tn := by
  have hfile : solutionFilename n alpha =
      "lwechallenge/" ++ fmt03 n ++ "-" ++ fmt03 (Int.toNat ⌊alpha * 1000⌋) ++
        "-solution.txt" := by
    unfold solutionFilename pyIntQ
    rw [if_pos (mul_nonneg halpha (by norm_num))]
  induction schedule generalizing s with
  | nil => exact Or.inl rfl
  | cons blocksize rest ih =>
    cases hrun : runTours (tourBody (phase1 blocksize) (phase2 blocksize) r00 tn) tours s with
    | error e =>
      refine Or.inr (Or.inl ⟨e, ?_⟩)
      rw [lwe_loop]
      simp only [hrun]
    | ok s1 =>
      by_cases hgoal : r00 s1 ≤ tn
      · refine Or.inr (Or.inr ⟨s1, ?_, hgoal⟩)
        rw [lwe_loop]
        simp only [hrun]
        rw [if_pos hgoal, hfile]
      · have hstep : lwe_loop phase1 phase2 r00 tn n alpha tours (blocksize :: rest) s =
            lwe_loop phase1 phase2 r00 tn n alpha tours rest s1 := by
          conv_lhs => rw [lwe_loop]
          simp only [hrun]
          rw [if_neg hgoal]
        rw [hstep]
        exact ih s1

/-- Witness for `lwe_kernel_terminal` on a one-entry schedule with an
error-free evaluate phase and the goal immediately met (`n = 40`,
`alpha = 0.005`): the solved branch applies with artifact name
`lwechallenge/040-005-solution.txt`. -/
theorem lwe_kernel_terminal_witness :
    lwe_loop (fun _ s => s) (fun _ s => Except.ok s) (fun _ => (0 : ℚ)) 0 40
      (1/200) 1 [10] () = Outcome.failed "No solution found." ∨
    (∃ e, lwe_loop (fun _ s => s) (fun _ s => Except.ok s) (fun _ => (0 : ℚ)) 0 40
      (1/200) 1 [10] () = Outcome.raised e) ∨
    ∃ sf, lwe_loop (fun _ s => s) (fun _ s => Except.ok s) (fun _ => (0 : ℚ)) 0 40
        (1/200) 1 [10] () =
        Outcome.solved ("lwechallenge/" ++ fmt03 40 ++ "-" ++
          fmt03 (Int.toNat ⌊(1/200 : ℚ) * 1000⌋) ++ "-solution.txt") sf ∧
      (fun _ => (0 : ℚ)) sf ≤ 0 :=
  lwe_kernel_terminal (fun _ s => s) (fun _ s => Except.ok s) (fun _ => (0 : ℚ)) 0 40
    (1/200) 1 [10] () (by norm_num)

/-- Python local names of `lwe_kernel`: its parameters plus every name
assigned somewhere in its body (assignment targets, `for` targets, tuple
unpackings, nested `def` statements), transcribed from the source. -/
def lweKernelLocals : List String :=
  ["arg0", "params", "seed", "n", "extra_dim4free", "jump", "dim4free_fun",
   "pump_params", "fpylll_crossover", "blocksizes", "tours",
   "svp_bkz_time_factor", "goal_margin", "alpha", "m", "decouple",
   "dont_trace", "verbose", "threads", "A", "c", "q", "min_cost_param",
   "b", "s", "target_norm", "B", "g6k", "tracer", "d", "slope", "T0",
   "T0_BKZ", "T_blocksizes", "blocksize", "tt", "T0_this_blocksize",
   "bkz", "par", "T_BKZ", "expo", "attainable_SVP_dim",
   "expected_successful_SVP_dim", "current_n_max", "current_n_expected",
   "ind", "remaining_blocksizes", "extra_T_BKZs", "future_rrs",
   "previous_blocksize", "rr", "extra_T_BKZ", "temp_T_blocksizes",
   "rblock", "T_rblock_BKZ", "more_BKZ", "potential_n_expected",
   "svp_dim_dec", "time_SVP_current", "llb", "f", "fmt", "alpha_",
   "filename", "fn"]

/-- The names bound inside the nested function `attainable_SVP_dim`
(lines 201-205): its parameter and its single local assignment. -/
def attainableSVPdimLocals : List String := ["T_BKZ", "svp_Tmax"]

/-- Module-level names of `lwe_challenge.py`: the imports and the two
top-level functions. -/
def moduleGlobals : List String :=
  ["copy", "re", "sys", "time", "OrderedDict", "log", "fplll_bkz",
   "BKZReduction", "simulate", "basis_quality", "gaussian_heuristic",
   "set_threads", "pump_n_jump_bkz_tour", "pump", "Siever", "parse_args",
   "run_all", "pop_prefixed_params", "SieveTreeTracer", "dummy_tracer",
   "load_lwe_challenge", "gsa_params", "primal_lattice_basis",
   "lwe_kernel", "lwe"]

/-- The Python builtins referenced by `lwe_kernel`. -/
def pyBuiltins : List String :=
  ["print", "int", "list", "range", "open", "str", "zip", "eval", "len"]

/-- Python name resolution for a statement in the body of `lwe_kernel`:
function-local scope, then module globals, then builtins.  The locals of
the functions nested *inside* `lwe_kernel` are not an enclosing scope for
`lwe_kernel`'s own body. -/
def resolvesInKernel (nm : String) : Bool :=
  lweKernelLocals.contains nm || moduleGlobals.contains nm ||
    pyBuiltins.contains nm

/-- The names the pre-search status message at line 280 reads:
`(llb, d-llb, f, current_n_max, svp_Tmax)`. -/
def line280Names : List String := ["llb", "d", "f", "current_n_max", "svp_Tmax"]

/-- Lines 279-282 of `lwe_kernel`: the escalation (SEARCH) branch.  When
`verbose` holds, the status message of line 280 is evaluated first; if one
of its names fails to resolve, the statement raises `NameError` and the
`pump` call at line 281 is never reached.  Without `verbose` the branch
proceeds directly to `pump`. -/
def searchBranch (verbose : Bool) : Except String String :=
  if verbose then
    match line280Names.find? (fun nm => !resolvesInKernel nm) with
    | some nm => Except.error ("NameError: name " ++ nm ++ " is not defined")
    | none => Except.ok "pump"
  else Except.ok "pump"

/-- C10: `svp_Tmax` is local to the nested `attainable_SVP_dim` and is not
among the names bound in `lwe_kernel`'s own scope, so with `verbose` the
escalation branch fails with a `NameError` before the external search engine
(`pump`) is invoked; `pump` is reached only with `verbose` disabled. -/
theorem verbose_escalation_unbound_name :
    searchBranch true = Except.error "NameError: name svp_Tmax is not defined" ∧
    searchBranch false = Except.ok "pump" ∧
    attainableSVPdimLocals.contains "svp_Tmax" = true ∧
    lweKernelLocals.contains "svp_Tmax" = false := by
  refine ⟨?_, ?_, ?_, ?_⟩ <;> rfl

/-- C8 counterexample: a third way to terminate.  A verbose run whose
evaluate phase reaches the escalation branch of lines 279-282: the
`NameError` of line 280 propagates out of the tour body unhandled, and the
kernel run terminates as `Outcome.raised` — it neither writes a solution
artifact nor raises the `"No solution found."` schedule-exhaustion error,
refuting the claim that those are the only two ways the kernel
terminates. -/
theorem lwe_kernel_third_termination :
    lwe_loop (fun _ s => s)
      (fun _ s => match searchBranch true with
        | Except.ok _ => Except.ok s
        | Except.error e => Except.error e)
      (fun _ => (1 : ℚ)) 0 40 (1/200) 1 [10] () =
      Outcome.raised "NameError: name svp_Tmax is not defined" ∧
    (Outcome.raised "NameError: name svp_Tmax is not defined" : Outcome Unit) ≠
      Outcome.failed "No solution found." := by
  constructor
  · rfl
  · intro h
    exact Outcome.noConfusion h
